import Mathlib

/-!
Shallow embedding of the incremental Airbnb crawl engine
(`Main.py`, `SQL.py`, `ScrapingUtils.py`, `Utils.py`, `Config.py`) and proofs
about its specification claims.

Conventions used throughout:
* Python values reachable by `_normalize_listing_id` are modelled by `PyVal`;
  parsed JSON documents by `Json`; both mirror the types Python's `json.loads`
  can produce.
* Python operations that can raise are modelled in the `Except Unit` monad;
  `.error ()` marks a raised exception, `try/except` blocks are modelled by
  matching on the `Except` value.
* Timestamps are modelled as integer seconds (the code stores
  `int(datetime.now().timestamp())`).
* SQLite tables are modelled as association lists keyed by the primary key.
-/

namespace AirbnbCrawl

/-! ## Python string primitives -/

/-- Whitespace stripped by Python `str.strip()` (ASCII subset; the exotic
Unicode whitespace stripped by CPython is irrelevant to the inputs here). -/
def pyIsSpace (c : Char) : Bool :=
  c.toNat == 32 || c.toNat == 9 || c.toNat == 10 || c.toNat == 13 ||
  c.toNat == 11 || c.toNat == 12

/-- ASCII digit test (Python `str.isdigit` restricted to ASCII). -/
def pyIsDigitChar (c : Char) : Bool := 48 ≤ c.toNat && c.toNat ≤ 57

def pyStripList (cs : List Char) : List Char :=
  ((cs.dropWhile pyIsSpace).reverse.dropWhile pyIsSpace).reverse

/-- Python `str.strip()`. -/
def pyStrip (s : String) : String := String.mk (pyStripList s.data)

/-- Python `str.isdigit()`: true iff the string is nonempty and every
character is a digit (ASCII model). -/
def pyIsdigitList (cs : List Char) : Bool :=
  !cs.isEmpty && cs.all (fun c => pyIsDigitChar c)

def pyIsdigit (s : String) : Bool := pyIsdigitList s.data

/-- Python `str.lower()` (ASCII model). -/
def pyLower (s : String) : String := String.mk (s.data.map Char.toLower)

/-- Positions at which `needle` occurs in `hay`. -/
def occIdxs (hay needle : List Char) : List Nat :=
  (List.range (hay.length + 1)).filter (fun i => needle.isPrefixOf (hay.drop i))

/-- Python `needle in hay` for strings. -/
def containsSub (hay needle : String) : Bool :=
  !(occIdxs hay.data needle.data).isEmpty

/-- Suffix of `hay` after the last occurrence of `needle`, i.e. Python
`hay.split(needle)[-1]`.  (Coincides with `split` for the separators used by
the scraper, none of which can overlap themselves.) -/
def afterLastOcc (hay needle : List Char) : List Char :=
  match (occIdxs hay needle).getLast? with
  | some i => (hay.drop i).drop needle.length
  | none => hay

/-- First maximal run of digits, i.e. Python `re.findall(r"\d+", s)[0]`. -/
def firstDigitRun (cs : List Char) : Option (List Char) :=
  let run := (cs.dropWhile (fun c => !pyIsDigitChar c)).takeWhile (fun c => pyIsDigitChar c)
  if run.isEmpty then none else some run

/-- Python `s.split(",")[0]` for a single-character separator. -/
def takeBeforeComma (cs : List Char) : List Char :=
  cs.takeWhile (fun c => c.toNat != 44)

def splitOnChar (cs : List Char) (sep : Char) : List (List Char) :=
  cs.foldr
    (fun c acc =>
      if c == sep then [] :: acc
      else
        match acc with
        | g :: gs => (c :: g) :: gs
        | [] => [[c]])
    [[]]

def digitsToNat (cs : List Char) : Nat :=
  cs.foldl (fun acc c => acc * 10 + (c.toNat - 48)) 0

/-! ## Python float model

`float(str)` is modelled with exact rational arithmetic over the grammar of
CPython decimal literals, including PEP 515 underscore grouping (an
underscore is legal exactly when it sits directly between two digits, and is
then ignored).  A magnitude of at least `2^1024 - 2^970` — the
round-to-infinity boundary `(1 - 2^-54) * 2^1024` of IEEE doubles under
round-half-to-even, stated over integer significands to keep the test in
natural-number arithmetic — is classified as an overflow to infinity.
In-range magnitudes are kept exact rather than rounded to the nearest
double; rounding an in-range value never changes whether the result is
finite, which is all `_normalize_listing_id`'s exception behaviour depends
on.  The `inf`/`nan` literals are not modelled: they cannot occur in a
string containing `"e+"`, the only place this `float` model is consumed. -/

inductive PyFloatVal
  | fin (q : ℚ)
  | inf
  | ninf
deriving DecidableEq, Repr

/-- PEP 515: every underscore in a numeric literal must sit directly between
two digits (so no leading/trailing underscore, none adjacent to `.`, `e`, a
sign or another underscore). -/
def underscoresOk : List Char → Bool
  | c :: '_' :: rest =>
    pyIsDigitChar c &&
      (match rest with
       | d :: _ => pyIsDigitChar d
       | [] => false) &&
      underscoresOk rest
  | '_' :: _ => false
  | _ :: rest => underscoresOk rest
  | [] => true

def parseExpPart : List Char → Option (Int × List Char)
  | 'e' :: rest | 'E' :: rest =>
    let (eneg, r2) : Bool × List Char :=
      match rest with
      | '+' :: r => (false, r)
      | '-' :: r => (true, r)
      | r => (false, r)
    let ds := r2.takeWhile (fun c => pyIsDigitChar c)
    let r3 := r2.dropWhile (fun c => pyIsDigitChar c)
    if ds.isEmpty then none
    else some ((if eneg then -(digitsToNat ds : Int) else (digitsToNat ds : Int)), r3)
  | cs => some (0, cs)

/-- CPython `float(s)` on a decimal literal. -/
def pyFloatParse (s : String) : Option PyFloatVal :=
  let cs0 := pyStripList s.data
  if !underscoresOk cs0 then none
  else
  let cs := cs0.filter (fun c => c.toNat != 95)
  let (neg, cs1) : Bool × List Char :=
    match cs with
    | '+' :: r => (false, r)
    | '-' :: r => (true, r)
    | r => (false, r)
  let intPart := cs1.takeWhile (fun c => pyIsDigitChar c)
  let cs2 := cs1.dropWhile (fun c => pyIsDigitChar c)
  let (fracPart, cs3) : List Char × List Char :=
    match cs2 with
    | '.' :: r => (r.takeWhile (fun c => pyIsDigitChar c), r.dropWhile (fun c => pyIsDigitChar c))
    | r => ([], r)
  if intPart.isEmpty && fracPart.isEmpty then none
  else
    match parseExpPart cs3 with
    | none => none
    | some (e, rest) =>
      if !rest.isEmpty then none
      else
        let n := digitsToNat (intPart ++ fracPart)
        let mant : ℚ := (n : ℚ) / (10 : ℚ) ^ fracPart.length
        let mag : ℚ :=
          if 0 ≤ e then mant * (10 : ℚ) ^ e.toNat else mant / (10 : ℚ) ^ (-e).toNat
        let q : ℚ := if neg then -mag else mag
        let overflow : Bool :=
          if 0 ≤ e then (2 ^ 1024 - 2 ^ 970) * 10 ^ fracPart.length ≤ n * 10 ^ e.toNat
          else (2 ^ 1024 - 2 ^ 970) * 10 ^ (fracPart.length + (-e).toNat) ≤ n
        if overflow then (if neg then some .ninf else some .inf)
        else some (.fin q)

/-- Python `int(x)` on a finite float: truncation toward zero. -/
def ratTruncToInt (q : ℚ) : Int := if 0 ≤ q then ⌊q⌋ else -⌊-q⌋

/-! ## base64 and UTF-8 models (used only inside a `try/except` that swallows
every failure, so only their totality and rough shape matter). -/

def b64Index (c : Char) : Option Nat :=
  if 65 ≤ c.toNat && c.toNat ≤ 90 then some (c.toNat - 65)
  else if 97 ≤ c.toNat && c.toNat ≤ 122 then some (c.toNat - 97 + 26)
  else if 48 ≤ c.toNat && c.toNat ≤ 57 then some (c.toNat - 48 + 52)
  else if c.toNat == 43 then some 62
  else if c.toNat == 47 then some 63
  else none

def sextetsToBytes : List Nat → List Nat
  | a :: b :: c :: d :: rest =>
    (a * 4 + b / 16) :: ((b % 16) * 16 + c / 4) :: ((c % 4) * 64 + d % 64) ::
      sextetsToBytes rest
  | [a, b] => [a * 4 + b / 16]
  | [a, b, c] => [a * 4 + b / 16, (b % 16) * 16 + c / 4]
  | _ => []

/-- CPython `base64.b64decode(s)` with `validate=False`: non-ASCII input
raises (inside `str.encode('ascii')`), characters outside the alphabet are
discarded, and bad padding raises `binascii.Error`; `none` models any raised
exception. -/
def b64decodePy (s : String) : Option (List Nat) :=
  if s.data.any (fun c => 128 ≤ c.toNat) then none
  else
    let kept := s.data.filter (fun c => (b64Index c).isSome || c.toNat == 61)
    if kept.length % 4 != 0 then none
    else
      let body := kept.takeWhile (fun c => c.toNat != 61)
      let sx := body.filterMap b64Index
      if sx.length % 4 == 1 then none else some (sextetsToBytes sx)

def validCodepoint (n : Nat) : Bool := n < 55296 || (57344 ≤ n && n < 1114112)

def isContByte (b : Nat) : Bool := 128 ≤ b && b ≤ 191

/-- Worker for `utf8DecodeIgnore`; the fuel is an upper bound on the number
of decoding steps (each step consumes at least one byte). -/
def utf8DecodeAux : Nat → List Nat → List Char
  | 0, _ => []
  | _, [] => []
  | fuel + 1, b :: rest =>
    if b < 128 then Char.ofNat b :: utf8DecodeAux fuel rest
    else if 194 ≤ b && b ≤ 223 then
      match rest with
      | b2 :: r2 =>
        if isContByte b2 then Char.ofNat ((b - 192) * 64 + (b2 - 128)) :: utf8DecodeAux fuel r2
        else utf8DecodeAux fuel rest
      | [] => []
    else if 224 ≤ b && b ≤ 239 then
      match rest with
      | b2 :: b3 :: r3 =>
        if isContByte b2 && isContByte b3 then
          let cp := (b - 224) * 4096 + (b2 - 128) * 64 + (b3 - 128)
          if validCodepoint cp && 2048 ≤ cp then Char.ofNat cp :: utf8DecodeAux fuel r3
          else utf8DecodeAux fuel r3
        else utf8DecodeAux fuel rest
      | _ => []
    else if 240 ≤ b && b ≤ 244 then
      match rest with
      | b2 :: b3 :: b4 :: r4 =>
        if isContByte b2 && isContByte b3 && isContByte b4 then
          let cp := (b - 240) * 262144 + (b2 - 128) * 4096 + (b3 - 128) * 64 + (b4 - 128)
          if 65536 ≤ cp && cp < 1114112 then Char.ofNat cp :: utf8DecodeAux fuel r4
          else utf8DecodeAux fuel r4
        else utf8DecodeAux fuel rest
      | _ => []
    else utf8DecodeAux fuel rest

/-- Python `bytes.decode("utf-8", errors="ignore")`: invalid bytes are
dropped. -/
def utf8DecodeIgnore (bs : List Nat) : List Char := utf8DecodeAux bs.length bs

/-! ## Python value model and `_normalize_listing_id` (ScrapingUtils.py 23-91) -/

inductive PyVal
  | pnone
  | pbool (b : Bool)
  | pint (n : Int)
  | pfloat (q : ℚ)
  | pstr (s : String)
  | plist (xs : List PyVal)
  | pdict (fields : List (String × PyVal))

/-- Python truthiness. -/
def pyTruthy : PyVal → Bool
  | .pnone => false
  | .pbool b => b
  | .pint n => n != 0
  | .pfloat q => q != 0
  | .pstr s => !s.data.isEmpty
  | .plist xs => !xs.isEmpty
  | .pdict fs => !fs.isEmpty

/-- Python `dict.get(k)` with default `None`. -/
def pyDictGet (fs : List (String × PyVal)) (k : String) : PyVal :=
  match fs.find? (fun p => p.1 == k) with
  | some p => p.2
  | none => .pnone

def fallbackKeys : List String := ["listingId", "id", "roomId"]

/-- First truthy value among `item["listingId"], item["id"], item["roomId"]`
(the fallback scan in `_normalize_listing_id`). -/
def firstFallback (fs : List (String × PyVal)) : Option PyVal :=
  (fallbackKeys.map (pyDictGet fs)).find? pyTruthy

def prefixTokens : List String :=
  ["StayListing:", "DemandStayListing:", "StayListingProduct:", "listing:", "rooms/"]

def b64PrefixTokens : List String :=
  ["StayListing:", "DemandStayListing:", "StayListingProduct:"]

/-- The prefixed-format extraction step: first prefix occurring in `t` whose
tail contains a digit run wins; a prefix without digits falls through to the
next one. -/
def prefixStep (t : String) : Option String :=
  (prefixTokens.filterMap (fun p =>
    if containsSub t p then (firstDigitRun (afterLastOcc t.data p.data)).map String.mk
    else none)).head?

/-- The URL extraction step: last path segment consisting only of digits. -/
def urlStep (t : String) : Option String :=
  if containsSub t "/" && containsSub t "rooms" then
    (((splitOnChar t.data '/').filter (fun p => !p.isEmpty)).reverse.find?
        (fun p => pyIsdigitList p)).map String.mk
  else none

/-- The base64 extraction step (the whole branch sits in `try/except: pass`,
so a `none` result simply falls through to the final `return None`). -/
def b64Step (t : String) : Option String :=
  if t.length > 10 && !pyIsdigit t then
    let m := t.length % 4
    let padded := if m != 0 then t ++ String.mk (List.replicate (4 - m) '=') else t
    match b64decodePy padded with
    | none => none
    | some bytes =>
      let decoded := String.mk (utf8DecodeIgnore bytes)
      match (b64PrefixTokens.filterMap (fun p =>
          if containsSub decoded p then
            let numericPart :=
              String.mk (pyStripList (takeBeforeComma (afterLastOcc decoded.data p.data)))
            if pyIsdigit numericPart then some numericPart else none
          else none)).head? with
      | some r => some r
      | none =>
        let d := pyStrip decoded
        if pyIsdigit d then some d else none
  else none

/-- The scientific-notation step.  `none` means the branch fell through
(either no `"e+"` in the string, or `float(s)` raised `ValueError`, which is
caught).  `some (.error ())` models the uncaught `OverflowError` raised by
`int(float(s))` when the float overflows to infinity (the `except` clause
catches only `ValueError`). -/
def expStep (t : String) : Option (Except Unit (Option String)) :=
  if containsSub (pyLower t) "e+" then
    match pyFloatParse t with
    | none => none
    | some (.fin q) => some (.ok (some (toString (ratTruncToInt q))))
    | some .inf => some (.error ())
    | some .ninf => some (.error ())
  else none

/-- Body of `_normalize_listing_id` for a non-`None` `raw_id` (the recursive
fallback call always passes `item=None`, so the fallback scan is factored
into the wrapper below). -/
def normalizeCore : PyVal → Except Unit (Option String)
  | .pint n => .ok (some (toString n))
  | .pbool b => .ok (some (if b then "True" else "False"))
  | .pstr raw =>
    let t := pyStrip raw
    if pyIsdigit t then .ok (some t)
    else
      match expStep t with
      | some r => r
      | none =>
        match prefixStep t with
        | some d => .ok (some d)
        | none =>
          match urlStep t with
          | some p => .ok (some p)
          | none =>
            match b64Step t with
            | some r => .ok (some r)
            | none => .ok none
  | _ => .ok none

/-- `ScrapingUtils._normalize_listing_id(raw_id, item)`.  `.ok none` models a
returned `None` (FAIL); `.error ()` models an uncaught exception escaping the
function. -/
def _normalize_listing_id (rawId item : PyVal) : Except Unit (Option String) :=
  match rawId with
  | .pnone =>
    match item with
    | .pdict fs =>
      match firstFallback fs with
      | some v => normalizeCore v
      | none => .ok none
    | _ => .ok none
  | .pbool b => normalizeCore (.pbool b)
  | .pint n => normalizeCore (.pint n)
  | .pfloat q => normalizeCore (.pfloat q)
  | .pstr s => normalizeCore (.pstr s)
  | .plist xs => normalizeCore (.plist xs)
  | .pdict fs2 => normalizeCore (.pdict fs2)

/-- Python composition `_normalize_listing_id(_normalize_listing_id(x))`. -/
def normalizeTwice (x : String) : Except Unit (Option String) :=
  match _normalize_listing_id (.pstr x) .pnone with
  | .error e => .error e
  | .ok (some s) => _normalize_listing_id (.pstr s) .pnone
  | .ok none => _normalize_listing_id .pnone .pnone

def exceptOk {ε α : Type} : Except ε α → Bool
  | .ok _ => true
  | .error _ => false

/-! ## JSON model and the response extraction step
(`ScrapingUtils.scrape_page_result`, lines 739-1124: everything after the
HTTP fetch and `json.loads` succeed). -/

inductive Json
  | null
  | bool (b : Bool)
  | num (q : ℚ)
  | str (s : String)
  | arr (xs : List Json)
  | obj (fields : List (String × Json))

/-- Python truthiness of a parsed JSON value. -/
def jTruthy : Json → Bool
  | .null => false
  | .bool b => b
  | .num q => q != 0
  | .str s => !s.data.isEmpty
  | .arr xs => !xs.isEmpty
  | .obj fs => !fs.isEmpty

def isObj : Json → Bool
  | .obj _ => true
  | _ => false

def jLookup (fs : List (String × Json)) (k : String) : Option Json :=
  (fs.find? (fun p => p.1 == k)).map (fun p => p.2)

/-- Python `x.get(k, dflt)` on a value that may not be a dict:
`AttributeError` when `x` is not a dict. -/
def pyGet (o : Json) (k : String) (dflt : Json) : Except Unit Json :=
  match o with
  | .obj fs => .ok ((jLookup fs k).getD dflt)
  | _ => .error ()

/-- Python `a or b`. -/
def jOr (a b : Json) : Json := if jTruthy a then a else b

/-- Conversion of a parsed JSON value into the `PyVal` universe used by
`_normalize_listing_id` (mirrors the types `json.loads` produces: whole
numbers are `int`, others `float`). -/
def jsonToPy : Json → PyVal
  | .null => .pnone
  | .bool b => .pbool b
  | .num q => if q.den == 1 then .pint q.num else .pfloat q
  | .str s => .pstr s
  | .arr xs => .plist (jsonToPyList xs)
  | .obj fs => .pdict (jsonToPyFields fs)
where
  jsonToPyList : List Json → List PyVal
    | [] => []
    | x :: rest => jsonToPy x :: jsonToPyList rest
  jsonToPyFields : List (String × Json) → List (String × PyVal)
    | [] => []
    | (k, v) :: rest => (k, jsonToPy v) :: jsonToPyFields rest

/-- `_deep_iter`: preorder enumeration of all dict and list subnodes (only
those are yielded).  The identity-based visited set in the source is a cycle
guard; parsed JSON is a tree, so it never fires. -/
def deepNodes : Json → List Json
  | .obj fs => Json.obj fs :: deepNodesFields fs
  | .arr xs => Json.arr xs :: deepNodesElems xs
  | _ => []
where
  deepNodesFields : List (String × Json) → List Json
    | [] => []
    | (_, v) :: rest => deepNodes v ++ deepNodesFields rest
  deepNodesElems : List Json → List Json
    | [] => []
    | x :: rest => deepNodes x ++ deepNodesElems rest

inductive SearchPath
  | single (k : String)
  | pair (a b : String)

/-- The ordered `search_paths` list of `_collect_search_results`. -/
def searchPaths : List SearchPath :=
  [.single "searchResults",
   .pair "staysSearchResults" "searchResults",
   .pair "staysSearchResultsV2" "searchResults",
   .pair "staysMapSearchResults" "mapResults",
   .pair "staysMapSearchResultsV2" "mapResults",
   .single "sectionedResults",
   .single "results",
   .single "mapResults",
   .single "listings",
   .single "items",
   .single "exploreItems"]

/-- Candidates found by probing the known key paths (every matching path
contributes, in order, as in the source's `candidates.extend`). -/
def pathCandidates (o : Json) : List Json :=
  searchPaths.flatMap (fun sp =>
    match sp with
    | .single k =>
      match o with
      | .obj fs =>
        match jLookup fs k with
        | some (.arr xs) => xs
        | _ => []
      | _ => []
    | .pair a b =>
      match o with
      | .obj fs =>
        match jLookup fs a with
        | some (.obj inner) =>
          match jLookup inner b with
          | some (.arr xs) => xs
          | _ => []
        | _ => []
      | _ => [])

/-- List-element test of the deep scan: an element shaped like a listing
container. -/
def looksListingItem (item : Json) : Bool :=
  match item with
  | .obj fs =>
    (match jLookup fs "listing" with
     | some (.obj _) => true
     | _ => false) ||
    (((jLookup fs "id").isSome || (jLookup fs "listingId").isSome) &&
     ((jLookup fs "title").isSome || (jLookup fs "name").isSome))
  | _ => false

/-- Candidates contributed by one node of the deep scan. -/
def nodeCandidates (node : Json) : List Json :=
  match node with
  | .obj fs =>
    match jLookup fs "listing" with
    | some (.obj lfs) =>
      if jTruthy ((jLookup lfs "id").getD .null) ||
         jTruthy ((jLookup lfs "listingId").getD .null)
      then [Json.obj fs] else []
    | _ =>
      if ((jLookup fs "id").isSome || (jLookup fs "listingId").isSome) &&
         ((jLookup fs "title").isSome || (jLookup fs "name").isSome ||
          (jLookup fs "structuredDisplayPrice").isSome)
      then [Json.obj [("listing", Json.obj fs)]] else []
  | .arr xs => if (xs.take 3).any looksListingItem then xs else []
  | _ => []

/-- `_collect_search_results`: path probing first, deep scan only when the
paths produced nothing. -/
def collectSearchResults (o : Json) : List Json :=
  let cands := pathCandidates o
  if cands.isEmpty then (deepNodes o).flatMap nodeCandidates else cands

def paginationKeys : List String := ["paginationInfo", "pageInfo", "pagination", "pagingInfo"]

/-- Deep-scan step of `_extract_pagination`: first pagination-shaped value of
a node (the value must be a dict or a list). -/
def nodePagination (node : Json) : Option Json :=
  match node with
  | .obj fs =>
    (paginationKeys.filterMap (fun k =>
      match jLookup fs k with
      | some (.obj g) => some (Json.obj g)
      | some (.arr g) => some (Json.arr g)
      | _ => none)).head?
  | _ => none

/-- `_extract_pagination`: known keys on the root (returned untyped), then
the deep scan, then `{}`. -/
def extractPagination (o : Json) : Json :=
  match (match o with
         | .obj fs => (paginationKeys.filterMap (jLookup fs)).head?
         | _ => none) with
  | some v => v
  | none => (((deepNodes o).filterMap nodePagination).head?).getD (Json.obj [])

def altLoggingKeys : List String := ["federatedSearchId", "searchSessionId", "requestId"]

/-- `_extract_legacy_logging`: the `try` direct path, then the deep scan for
`legacyLoggingContext` (whose value is returned with no type check), then a
dict assembled from the alternative keys (last deep occurrence wins). -/
def extractLegacyLogging (o : Json) : Json :=
  match (match o with
         | .obj fs =>
           match jLookup fs "loggingMetadata" with
           | some (.obj g) => jLookup g "legacyLoggingContext"
           | _ => none
         | _ => none) with
  | some v => v
  | none =>
    match ((deepNodes o).filterMap (fun n =>
            match n with
            | .obj fs => jLookup fs "legacyLoggingContext"
            | _ => none)).head? with
    | some v => v
    | none =>
      Json.obj (altLoggingKeys.filterMap (fun k =>
        (((deepNodes o).filterMap (fun n =>
            match n with
            | .obj fs => jLookup fs k
            | _ => none)).getLast?).map (fun v => (k, v))))

/-- Python `int(s)` on a string. -/
def pyIntOfString (s : String) : Option Int :=
  let cs := pyStripList s.data
  let (neg, cs1) : Bool × List Char :=
    match cs with
    | '+' :: r => (false, r)
    | '-' :: r => (true, r)
    | r => (false, r)
  if cs1.isEmpty || !cs1.all (fun c => pyIsDigitChar c) then none
  else some (if neg then -(digitsToNat cs1 : Int) else (digitsToNat cs1 : Int))

/-- Python `int(x)` on a parsed JSON value (floats truncate toward zero,
bools are ints, anything else raises). -/
def pyInt (v : Json) : Except Unit Int :=
  match v with
  | .num q => .ok (ratTruncToInt q)
  | .bool b => .ok (if b then 1 else 0)
  | .str s =>
    match pyIntOfString s with
    | some n => .ok n
    | none => .error ()
  | _ => .error ()

def nextCursorKeys : List String :=
  ["nextPageCursor", "nextCursor", "nextPageToken", "cursor", "next"]

/-- The `nextPageCursor` computation (`.null` models Python `None`; the whole
block is wrapped in `try/except: pass` in the source but none of its
operations can raise). -/
def computeNextCursor (pg : Json) : Json :=
  match pg with
  | .obj fs =>
    ((nextCursorKeys.filterMap (fun k =>
       match jLookup fs k with
       | some v => if jTruthy v then some v else none
       | none => none)).head?).getD .null
  | .arr xs =>
    if xs.isEmpty then .null
    else
      match xs.getLast? with
      | some (.obj lfs) =>
        jOr ((jLookup lfs "cursor").getD .null) ((jLookup lfs "nextPageCursor").getD .null)
      | _ => .null
  | _ => .null

/-- The `totalPages` computation; `int(...)` of an unconvertible truthy value
raises. -/
def computeTotalPages (pg : Json) : Except Unit Int :=
  match pg with
  | .obj fs =>
    let pc := jOr ((jLookup fs "pageCursors").getD .null)
                (jOr ((jLookup fs "cursors").getD .null) ((jLookup fs "pages").getD .null))
    match pc with
    | .arr xs => .ok (xs.length : Int)
    | .obj pfs =>
      pyInt (jOr ((jLookup pfs "totalCount").getD .null)
              (jOr ((jLookup pfs "totalPages").getD .null) (Json.num 0)))
    | _ => pyInt (jOr ((jLookup fs "totalPages").getD .null) (Json.num 0))
  | _ => .ok 0

/-- Python `v if isinstance(v, str) and v.strip() else <next>` chain used by
`_pick`: first argument that is a string with nonempty strip. -/
def pickStr (vals : List Json) : Option String :=
  (vals.filterMap (fun v =>
    match v with
    | .str s => if !(pyStripList s.data).isEmpty then some s else none
    | _ => none)).head?

/-- One row of the `export_results` list (`scrape_page_result`'s per-item
dict).  Loosely typed fields keep their JSON values. -/
structure ExportRecord where
  id : String
  listingObjType : Json
  roomTypeCategory : Json
  title : Json
  name : Json
  picture : Json
  checkin : Json
  checkout : Json
  price : Option String
  discounted_price : Option String
  original_price : Option String
  link : String
  scraping_time : Int
  categoryTag : Json
  photoId : Json

/-- Listing selection at the top of the per-item loop. -/
def findListing (ifs : List (String × Json)) : Option Json :=
  match jLookup ifs "listing" with
  | some (.obj lfs) => some (.obj lfs)
  | _ =>
    if jTruthy ((jLookup ifs "id").getD .null) ||
       jTruthy ((jLookup ifs "listingId").getD .null)
    then some (.obj ifs)
    else
      (ifs.filterMap (fun p =>
        match p.2 with
        | .obj vfs =>
          if jTruthy ((jLookup vfs "id").getD .null) ||
             jTruthy ((jLookup vfs "listingId").getD .null)
          then some p.2 else none
        | _ => none)).head?

def picListPaths : List String :=
  ["contextualPictures", "listingContextualPictures", "pictures", "images",
   "photos", "media", "cardPhotos"]

def picFieldPaths : List String :=
  ["previewImage", "mainImage", "heroImage", "thumbnail", "image"]

/-- Picture extraction (no operation in it can raise). -/
def computePicture (ifs lfs : List (String × Json)) : Json :=
  match (picListPaths.filterMap (fun p =>
          let pics := jOr ((jLookup ifs p).getD .null) ((jLookup lfs p).getD .null)
          match pics with
          | .arr (first :: _) =>
            match first with
            | .obj ffs =>
              let u := jOr ((jLookup ffs "picture").getD .null)
                        (jOr ((jLookup ffs "url").getD .null)
                          (jOr ((jLookup ffs "src").getD .null) ((jLookup ffs "uri").getD .null)))
              if jTruthy u then some u else none
            | _ => none
          | _ => none)).head? with
  | some u => u
  | none =>
    ((picFieldPaths.filterMap (fun f =>
        let pd := jOr ((jLookup ifs f).getD .null) ((jLookup lfs f).getD .null)
        if jTruthy pd then
          match pd with
          | .obj pfs =>
            let u := jOr ((jLookup pfs "url").getD .null) ((jLookup pfs "src").getD .null)
            if jTruthy u then some u else none
          | .str s => some (Json.str s)
          | _ => none
        else none)).head?).getD .null

/-- Title fallback chain; the `presentation` sub-get is only evaluated when
the earlier alternatives are falsy (Python `or` short-circuits). -/
def computeTitle (ifs lfs : List (String × Json)) : Except Unit Json := do
  let t1 := (jLookup lfs "title").getD .null
  if jTruthy t1 then return t1
  let t2 := (jLookup lfs "name").getD .null
  if jTruthy t2 then return t2
  let t3 := (jLookup lfs "localizedTitle").getD .null
  if jTruthy t3 then return t3
  let pres := jOr ((jLookup lfs "presentation").getD (Json.obj [])) (Json.obj [])
  let t4 ← pyGet pres "title" .null
  if jTruthy t4 then return t4
  let t5 := (jLookup ifs "title").getD .null
  if jTruthy t5 then return t5
  return (jLookup ifs "name").getD .null

/-- Price fallback for one node of `(item, listing)`. -/
def priceFromNode (nfs : List (String × Json)) : Except Unit (Option String) := do
  let pv := jOr ((jLookup nfs "price").getD (Json.obj [])) (Json.obj [])
  let a1 ← pyGet pv "amountFormatted" .null
  let pq := jOr ((jLookup nfs "pricingQuote").getD (Json.obj [])) (Json.obj [])
  let a2 ← pyGet pq "priceString" .null
  let pm := jOr ((jLookup nfs "priceMetadata").getD (Json.obj [])) (Json.obj [])
  let a3 ← pyGet pm "displayRate" .null
  return pickStr [a1, a2, a3, (jLookup nfs "displayPrice").getD .null,
                  (jLookup nfs "price").getD .null]

/-- Body of the per-item loop of `scrape_page_result` (lines 935-1058).
`.error ()` models any exception raised inside the loop body; the caller
catches it and skips the item.  `.ok none` models `continue` without an
exception. -/
def mapItemE (now : Int) (item : Json) : Except Unit (Option ExportRecord) :=
  match item with
  | .obj ifs =>
    match findListing ifs with
    | some (.obj lfs) => do
      let rawId := jOr ((jLookup lfs "id").getD .null) ((jLookup lfs "listingId").getD .null)
      let idOpt ← _normalize_listing_id (jsonToPy rawId) (jsonToPy (.obj lfs))
      match idOpt with
      | none => pure none
      | some lid =>
        if lid.data.isEmpty then pure none
        else do
          let title ← computeTitle ifs lfs
          let sdp := jOr ((jLookup ifs "structuredDisplayPrice").getD .null)
                      (jOr ((jLookup lfs "structuredDisplayPrice").getD .null) (Json.obj []))
          let priceTriple ←
            (if jTruthy sdp then do
              let plRaw ← pyGet sdp "primaryLine" .null
              let pl := jOr plRaw (Json.obj [])
              let p ← pyGet pl "price" .null
              let ps ← pyGet pl "priceString" .null
              let dp ← pyGet pl "displayPrice" .null
              let dcp ← pyGet pl "discountedPrice" .null
              let op ← pyGet pl "originalPrice" .null
              pure (pickStr [p, ps, dp], pickStr [dcp], pickStr [op])
            else pure ((none : Option String), (none : Option String), (none : Option String)))
          let price ←
            (match priceTriple.1 with
             | some p => pure (some p)
             | none => do
               let p1 ← priceFromNode ifs
               match p1 with
               | some p => pure (some p)
               | none => priceFromNode lfs)
          let picture := computePicture ifs lfs
          let lpo := jOr ((jLookup ifs "listingParamOverrides").getD (Json.obj [])) (Json.obj [])
          let checkin ← pyGet lpo "checkin" .null
          let checkout ← pyGet lpo "checkout" .null
          let categoryTag ← pyGet lpo "categoryTag" .null
          let photoId ← pyGet lpo "photoId" .null
          pure (some
            { id := lid,
              listingObjType := (jLookup lfs "listingObjType").getD (Json.str "REGULAR"),
              roomTypeCategory := (jLookup lfs "roomTypeCategory").getD (Json.str "unavailable"),
              title := title,
              name := title,
              picture := picture,
              checkin := checkin,
              checkout := checkout,
              price := price,
              discounted_price := priceTriple.2.1,
              original_price := priceTriple.2.2,
              link := "https://www.airbnb.com/rooms/" ++ lid,
              scraping_time := now,
              categoryTag := categoryTag,
              photoId := photoId })
    | _ => pure none
  | _ => pure none

def altDataPaths : List (List String) :=
  [["data", "staysSearch"],
   ["data", "presentation", "explore"],
   ["data", "presentation", "search"],
   ["data", "explore", "sections", "sectionedResults"]]

/-- Traversal step of the `alternative_paths` loop; `none` models the
`AttributeError` raised (and caught, continuing the loop) when a non-dict is
reached. -/
def tryAltPathGo : Json → List String → Option Json
  | cur, [] => some cur
  | cur, k :: rest =>
    match cur with
    | .obj fs => tryAltPathGo ((jLookup fs k).getD (Json.obj [])) rest
    | _ => none

/-- One iteration of the alternative-path loop: the path's final value is
only accepted when it is a truthy dict. -/
def tryAltPath (doc : Json) (path : List String) : Option Json :=
  match tryAltPathGo doc path with
  | some r => if jTruthy r && isObj r then some r else none
  | none => none

/-- Output shape of the extraction step.  `nextPageCursor = .null` models
Python `None`. -/
structure ExtractOutput where
  searchResults : List ExportRecord
  nextPageCursor : Json
  totalPages : Int
  federatedSearchId : Json
  federatedSearchSessionId : Json

def emptyExtract : ExtractOutput :=
  { searchResults := [], nextPageCursor := .null, totalPages := 0,
    federatedSearchId := .null, federatedSearchSessionId := .null }

/-- The response extraction step of `scrape_page_result` (lines 739-1124),
starting from the successfully parsed JSON document.  `.error ()` models an
exception escaping the function (and hence being treated as a failed fetch by
the retry loop in `Main.start_scraping`). -/
def extractE (now : Int) (doc : Json) : Except Unit ExtractOutput := do
  let dataV ← pyGet doc "data" .null
  let dataEff := jOr dataV (Json.obj [])
  let presV ← pyGet dataEff "presentation" (Json.obj [])
  let staysV ← pyGet presV "staysSearch" (Json.obj [])
  let dataRootOpt : Option Json :=
    if jTruthy staysV then some staysV
    else (altDataPaths.filterMap (tryAltPath doc)).head?
  match dataRootOpt with
  | none => pure emptyExtract
  | some dataRoot => do
    let resultsV ← pyGet dataRoot "results" .null
    let resultsObj := jOr resultsV dataRoot
    let rawItems := collectSearchResults resultsObj
    let exportResults := rawItems.filterMap (fun it =>
      match mapItemE now it with
      | .ok r => r
      | .error _ => none)
    let pg := jOr (extractPagination resultsObj) (Json.obj [])
    let legacy := jOr (extractLegacyLogging resultsObj) (Json.obj [])
    let nextCursor := computeNextCursor pg
    let totalPages ← computeTotalPages pg
    let fsi ← pyGet legacy "federatedSearchId" .null
    let fssi ← pyGet legacy "federatedSearchSessionId" .null
    pure { searchResults := exportResults, nextPageCursor := nextCursor,
           totalPages := totalPages, federatedSearchId := fsi,
           federatedSearchSessionId := fssi }

/-- Total variant of `dict.get` used to state well-shapedness (agrees with
`pyGet` on dicts, see `pyGet_eq_of_isObj`). -/
def jGetD (o : Json) (k : String) (d : Json) : Json :=
  match o with
  | .obj fs => (jLookup fs k).getD d
  | _ => d

/-- Documents on which the extraction is exception-free: the
`data`/`presentation`/`staysSearch` chain, the selected data root and the
legacy-logging value have the expected (dict) types where they are used as
dicts, and the pagination count fields convert to `int`. -/
def wellShapedDoc (doc : Json) : Bool :=
  isObj doc &&
  (let dataEff := jOr (jGetD doc "data" .null) (Json.obj [])
   isObj dataEff &&
   (let presV := jGetD dataEff "presentation" (Json.obj [])
    isObj presV &&
    (let staysV := jGetD presV "staysSearch" (Json.obj [])
     (!jTruthy staysV || isObj staysV) &&
     (match (if jTruthy staysV then some staysV
             else (altDataPaths.filterMap (tryAltPath doc)).head?) with
      | none => true
      | some dataRoot =>
        isObj dataRoot &&
        (let resultsObj := jOr (jGetD dataRoot "results" .null) dataRoot
         isObj (jOr (extractLegacyLogging resultsObj) (Json.obj [])) &&
         exceptOk (computeTotalPages (jOr (extractPagination resultsObj) (Json.obj []))))))))

/-! ## Crawl state store (SQL.py)

Tables are association lists keyed by the primary key.  All time values are
integer Unix seconds; each run uses a single instant `now` (the code takes
fresh `datetime.now()` values microseconds apart within one run). -/

/-- A row of `listing_tracking` (SQL.py 19-54). -/
structure ListingRow where
  id : String
  listingObjType : Option String
  roomTypeCategory : Option String
  title : Option String
  name : Option String
  picture : Option String
  checkin : Option String
  checkout : Option String
  price : Option String
  discounted_price : Option String
  original_price : Option String
  link : Option String
  scraping_time : Int
  needs_detail_scraping : Int
  has_detailed_data : Int
  reviewsCount : Int
  averageRating : ℚ
  host : Option String
  airbnbLuxe : Bool
  location : Option String
  maxGuestCapacity : Int
  isGuestFavorite : Bool
  lat : Option ℚ
  lng : Option ℚ
  isSuperhost : Bool
  isVerified : Bool
  ratingCount : Int
  userId : Option String
  years : Int
  months : Int
  hostrAtingAverage : ℚ
deriving DecidableEq, Repr

/-- The input dict handed to `insert_basic_listing`: the basic search-result
fields plus the detail-only fields, each of which may be absent (`none`) so
that the function's defaults apply.  For the nullable columns (`host`,
`location`, `lat`, `lng`, `userId`) the default is NULL, so absence and a
present NULL coincide. -/
structure BasicInput where
  id : String
  listingObjType : Option String := none
  roomTypeCategory : Option String := none
  title : Option String := none
  name : Option String := none
  picture : Option String := none
  checkin : Option String := none
  checkout : Option String := none
  price : Option String := none
  discounted_price : Option String := none
  original_price : Option String := none
  link : Option String := none
  reviewsCount : Option Int := none
  averageRating : Option ℚ := none
  host : Option String := none
  airbnbLuxe : Option Bool := none
  location : Option String := none
  maxGuestCapacity : Option Int := none
  isGuestFavorite : Option Bool := none
  lat : Option ℚ := none
  lng : Option ℚ := none
  isSuperhost : Option Bool := none
  isVerified : Option Bool := none
  ratingCount : Option Int := none
  userId : Option String := none
  years : Option Int := none
  months : Option Int := none
  hostrAtingAverage : Option ℚ := none
deriving DecidableEq, Repr

abbrev ListingStore := List (String × ListingRow)

/-- `INSERT OR REPLACE` keyed by the primary key. -/
def insertOrReplace (store : ListingStore) (k : String) (v : ListingRow) : ListingStore :=
  if store.any (fun p => p.1 == k) then
    store.map (fun p => if p.1 == k then (k, v) else p)
  else store ++ [(k, v)]

def lookupRow (store : ListingStore) (k : String) : Option ListingRow :=
  (store.find? (fun p => p.1 == k)).map (fun p => p.2)

/-- All detail-only fields are absent from the input dict (so
`insert_basic_listing`'s defaults apply to every one of them). -/
def noDetailFields (d : BasicInput) : Bool :=
  d.reviewsCount.isNone && d.averageRating.isNone && d.host.isNone &&
  d.airbnbLuxe.isNone && d.location.isNone && d.maxGuestCapacity.isNone &&
  d.isGuestFavorite.isNone && d.lat.isNone && d.lng.isNone &&
  d.isSuperhost.isNone && d.isVerified.isNone && d.ratingCount.isNone &&
  d.userId.isNone && d.years.isNone && d.months.isNone &&
  d.hostrAtingAverage.isNone

/-- `SQL.insert_basic_listing` (SQL.py 98-148): stamps the current time,
forces `has_detailed_data = 0` and `needs_detail_scraping = 1`, fills every
missing detail-only field with its zero-value default, and `INSERT OR
REPLACE`s the whole row. -/
def insert_basic_listing (store : ListingStore) (data : BasicInput) (now : Int) : ListingStore :=
  let row : ListingRow :=
    { id := data.id,
      listingObjType := data.listingObjType,
      roomTypeCategory := data.roomTypeCategory,
      title := data.title,
      name := data.name,
      picture := data.picture,
      checkin := data.checkin,
      checkout := data.checkout,
      price := data.price,
      discounted_price := data.discounted_price,
      original_price := data.original_price,
      link := data.link,
      scraping_time := now,
      needs_detail_scraping := 1,
      has_detailed_data := 0,
      reviewsCount := data.reviewsCount.getD 0,
      averageRating := data.averageRating.getD 0,
      host := data.host,
      airbnbLuxe := data.airbnbLuxe.getD false,
      location := data.location,
      maxGuestCapacity := data.maxGuestCapacity.getD 0,
      isGuestFavorite := data.isGuestFavorite.getD false,
      lat := data.lat,
      lng := data.lng,
      isSuperhost := data.isSuperhost.getD false,
      isVerified := data.isVerified.getD false,
      ratingCount := data.ratingCount.getD 0,
      userId := data.userId,
      years := data.years.getD 0,
      months := data.months.getD 0,
      hostrAtingAverage := data.hostrAtingAverage.getD 0 }
  insertOrReplace store data.id row

/-- `SQL.check_if_listing_exists` (SQL.py 251-264): a row with this id whose
`scraping_time` is within the listing freshness window. -/
def check_if_listing_exists (store : ListingStore) (now : Int) (windowDays : Nat)
    (listingId : String) : Bool :=
  store.any (fun p =>
    p.1 == listingId && decide (now - (windowDays : Int) * 86400 ≤ p.2.scraping_time))

/-- A row of `boundaries_tracking` (SQL.py 6-17).  `Main.start_scraping`
passes `xmin, ymin, xmax, ymax := boundary[0..3]`. -/
structure BoundaryRow where
  id : Nat
  xmin : ℚ
  ymin : ℚ
  xmax : ℚ
  ymax : ℚ
  timestamp : Int
  total : Nat
deriving DecidableEq, Repr

abbrev BoundaryStore := List BoundaryRow

/-- `SQL.check_if_boundaries_exists` (SQL.py 281-293). -/
def check_if_boundaries_exists (store : BoundaryStore) (now : Int) (windowDays : Nat)
    (tileId : Nat) : Bool :=
  store.any (fun row =>
    row.id == tileId && decide (now - (windowDays : Int) * 86400 ≤ row.timestamp))

/-- One page handed back by `scrape_page_result` to `start_scraping` (the
fields the orchestrator consumes). -/
structure PageResult where
  searchResults : List BasicInput
  nextPageCursor : Option String
  totalPages : Nat

/-- One geographic tile together with its run fixture: the successive
outcomes of the per-page fetch loop (`none` = the fetch failed after all
retries were exhausted). -/
structure Tile where
  swLat : ℚ
  swLng : ℚ
  neLat : ℚ
  neLng : ℚ
  pages : List (Option PageResult)

/-- `SQL.insert_new_boundaries_tracking` (SQL.py 225-249): insert or update,
always overwriting the timestamp with the call time. -/
def insert_new_boundaries_tracking (store : BoundaryStore) (tileId : Nat) (t : Tile)
    (total : Nat) (now : Int) : BoundaryStore :=
  if store.any (fun row => row.id == tileId) then
    store.map (fun row =>
      if row.id == tileId then { row with total := total, timestamp := now } else row)
  else
    store ++ [{ id := tileId, xmin := t.swLat, ymin := t.swLng, xmax := t.neLat,
                ymax := t.neLng, timestamp := now, total := total }]

/-- `SQL.get_tracking` (SQL.py 333-346): returns the stored cursor and the
updated table (a 0 row is created on first run). -/
def get_tracking : Option Nat → Nat × Option Nat
  | none => (0, some 0)
  | some v => (v, some v)

/-! ## Crawl orchestrator (`Main.start_scraping`, lines 344-848)

Modelled state: the three tables plus the run-local counters.  Omitted
because they do not touch the modelled state: logging, sleeps, the browser
token capture/refresh (`request_count`), and the detail-enrichment branch
(`scrape_single_result` / `update_listing_with_details`), which only
rewrites detail columns of already-present rows and never changes
`scraping_time`, the counters checked by the budget logic, or the cursor. -/

/-- Run-level configuration (Config.py). -/
structure ScrapeConfig where
  MAX_LISTINGS_PER_RUN : Nat
  DETAIL_SCRAPE_LIMIT : Nat
  BOUNDARIES_PER_SCRAPING : Nat
  UPDATE_WINDOW_DAYS_BOUNDARY : Nat
  UPDATE_WINDOW_DAYS_LISTING : Nat

structure RunState where
  listings : ListingStore
  boundaries : BoundaryStore
  tracking : Nat
  processed_total : Nat
  stop_everything : Bool
  fetches : Nat
deriving Repr

/-- The persistent database at run start. -/
structure DBState where
  listings : ListingStore
  boundaries : BoundaryStore
  tracking : Option Nat

/-- `validate_listing_data` (Main.py 78-120): a result is kept iff its id is
truthy and `str(id).isdigit()`; everything else only produces warnings. -/
def isValidListing (r : BasicInput) : Bool :=
  !r.id.data.isEmpty && pyIsdigit r.id

/-- Executable form of the rational comparison `a - b <= c`, cross-multiplied
into integer arithmetic so that concrete instances reduce inside the kernel
(see `ratDiffLe_eq`). -/
def ratDiffLe (a b c : ℚ) : Bool :=
  decide ((a.num * b.den - b.num * a.den) * c.den ≤ c.num * (a.den * b.den))

/-- `_is_plausible_morocco_bbox` (Main.py 638-647). -/
def isPlausibleMoroccoBbox (t : Tile) : Bool :=
  decide (20 ≤ t.swLat) && decide (t.swLat ≤ mkRat 75 2) &&
  decide (20 ≤ t.neLat) && decide (t.neLat ≤ mkRat 75 2) &&
  decide (mkRat (-35) 2 ≤ t.swLng) && decide (t.swLng ≤ mkRat (-1) 2) &&
  decide (mkRat (-35) 2 ≤ t.neLng) && decide (t.neLng ≤ mkRat (-1) 2) &&
  decide (t.swLat < t.neLat) && decide (t.swLng < t.neLng) &&
  ratDiffLe t.neLat t.swLat 5 && ratDiffLe t.neLng t.swLng 5

/-- The `for result in valid_results` loop (Main.py 722-825).  Returns the
updated state and the updated per-tile `total_found` counter. -/
def processResults (cfg : ScrapeConfig) (now : Int) :
    List BasicInput → RunState → Nat → RunState × Nat
  | [], st, totalFound => (st, totalFound)
  | r :: rs, st, totalFound =>
    if st.stop_everything then (st, totalFound)
    else
      let totalFound := totalFound + 1
      if cfg.MAX_LISTINGS_PER_RUN ≤ st.processed_total then
        ({ st with stop_everything := true }, totalFound)
      else
        let st :=
          if check_if_listing_exists st.listings now cfg.UPDATE_WINDOW_DAYS_LISTING r.id
          then st
          else { st with
                 listings := insert_basic_listing st.listings r now,
                 processed_total := st.processed_total + 1 }
        processResults cfg now rs st totalFound

/-- The `while True` pagination loop of one tile (Main.py 660-829), driven by
the tile's fetch-outcome trace.  `fetches` counts executed
`scrape_page_result` calls (one per loop iteration; the bounded inner retry
loop is part of a single outcome).  An exhausted trace behaves like a failed
fetch. -/
def runTilePages (cfg : ScrapeConfig) (now : Int) :
    List (Option PageResult) → RunState → Nat → RunState × Nat
  | [], st, totalFound => (st, totalFound)
  | po :: rest, st, totalFound =>
    if st.stop_everything then (st, totalFound)
    else
      match po with
      | none => ({ st with fetches := st.fetches + 1 }, totalFound)
      | some pr =>
        let st1 := { st with fetches := st.fetches + 1 }
        let valid := pr.searchResults.filter isValidListing
        let res := processResults cfg now valid st1 totalFound
        if res.1.stop_everything || pr.nextPageCursor.isNone || valid.length < 13
        then res
        else runTilePages cfg now rest res.1 res.2

/-- Handling of one tile of the boundary loop (Main.py 616-848, minus the
loop-head `stop_everything` check, which lives in `runTiles`): freshness
skip, bbox sanity skip, the pagination loop, and the unconditional
tile-scrape record plus cursor advance. -/
def runTile (cfg : ScrapeConfig) (now : Int) (idx : Nat) (t : Tile) (st : RunState) : RunState :=
  if check_if_boundaries_exists st.boundaries now cfg.UPDATE_WINDOW_DAYS_BOUNDARY idx then
    { st with tracking := idx + 1 }
  else if !isPlausibleMoroccoBbox t then
    { st with tracking := idx + 1 }
  else
    let res := runTilePages cfg now t.pages st 0
    { res.1 with
      boundaries := insert_new_boundaries_tracking res.1.boundaries idx t res.2 now,
      tracking := idx + 1 }

/-- The `for global_idx, boundary in enumerate(boundaries, start=start)`
loop. -/
def runTiles (cfg : ScrapeConfig) (now : Int) :
    List Tile → Nat → RunState → RunState
  | [], _, st => st
  | t :: ts, idx, st =>
    if st.stop_everything then st
    else runTiles cfg now ts (idx + 1) (runTile cfg now idx t st)

/-- `Main.start_scraping`: cursor initialisation and wraparound (Main.py
379-385), tile slice selection, and the boundary loop. -/
def start_scraping (cfg : ScrapeConfig) (now : Int) (allTiles : List Tile)
    (db : DBState) : RunState :=
  let s0 := (get_tracking db.tracking).1
  let start := if allTiles.length ≤ s0 then 0 else s0
  let boundaries := (allTiles.drop start).take cfg.BOUNDARIES_PER_SCRAPING
  runTiles cfg now boundaries start
    { listings := db.listings, boundaries := db.boundaries, tracking := start,
      processed_total := 0, stop_everything := false, fetches := 0 }

/-! ## Fixtures used by the claim theorems -/

/-- A run configuration with the Config.py defaults and an adjustable
per-run listing cap. -/
def fixtureCfg (maxListings : Nat) : ScrapeConfig :=
  { MAX_LISTINGS_PER_RUN := maxListings, DETAIL_SCRAPE_LIMIT := 3,
    BOUNDARIES_PER_SCRAPING := 20, UPDATE_WINDOW_DAYS_BOUNDARY := 30,
    UPDATE_WINDOW_DAYS_LISTING := 30 }

/-- A plausible Morocco tile (`sw = (30, -8)`, `ne = (30.5, -7.5)`) with the
given fetch trace. -/
def fixtureTile (pages : List (Option PageResult)) : Tile :=
  { swLat := 30, swLng := -8, neLat := mkRat 61 2, neLng := mkRat (-15) 2, pages := pages }

def emptyDB : DBState := { listings := [], boundaries := [], tracking := none }

/-- Distinct all-digit listing ids: `"1"`, `"11"`, `"111"`, ... -/
def onesId (i : Nat) : String := String.mk (List.replicate (i + 1) '1')

def mkBasic (i : Nat) : BasicInput := { id := onesId i }

def mkRecords (k : Nat) : List BasicInput := (List.range k).map mkBasic

/-- A basic search-result input (no detail fields). -/
def sampleBasic : BasicInput := { id := "5", title := some "Nice flat" }

/-- A fully enriched row, used to exhibit demotion by a basic re-scrape. -/
def sampleDetailedRow : ListingRow :=
  { id := "5", listingObjType := none, roomTypeCategory := none, title := some "old",
    name := none, picture := none, checkin := none, checkout := none, price := none,
    discounted_price := none, original_price := none, link := none, scraping_time := 50,
    needs_detail_scraping := 0, has_detailed_data := 1, reviewsCount := 9,
    averageRating := 4, host := some "Bob", airbnbLuxe := true, location := some "Fes",
    maxGuestCapacity := 4, isGuestFavorite := true, lat := some 31, lng := some (-7),
    isSuperhost := true, isVerified := true, ratingCount := 9, userId := some "u7",
    years := 2, months := 3, hostrAtingAverage := 5 }

/-- A full page: 13 valid records and a next-page cursor. -/
def fullPage : PageResult :=
  { searchResults := mkRecords 13, nextPageCursor := some "tok2", totalPages := 2 }

/-- An empty final page. -/
def emptyPage : PageResult :=
  { searchResults := [], nextPageCursor := none, totalPages := 0 }

/-- A fresh run state over an empty store. -/
def freshRunState : RunState :=
  { listings := [], boundaries := [], tracking := 0, processed_total := 0,
    stop_everything := false, fetches := 0 }

/-! ## Helper lemmas -/

theorem any_false_of_no_key (store : BoundaryStore) (tileId : Nat)
    (g : BoundaryRow → Bool) (h : store.any (fun row => row.id == tileId) = false) :
    store.any (fun row => row.id == tileId && g row) = false := by
  induction store with
  | nil => rfl
  | cons a t ih =>
    simp only [List.any_cons, Bool.or_eq_false_iff] at h ⊢
    exact ⟨by rw [h.1, Bool.false_and], ih h.2⟩

theorem any_check_map_update (store : BoundaryStore) (tileId : Nat) (total : Nat)
    (tWrite now : Int) (w : Nat) :
    ((store.map (fun row =>
        if row.id == tileId then { row with total := total, timestamp := tWrite } else row)).any
      (fun row => row.id == tileId && decide (now - (w : Int) * 86400 ≤ row.timestamp)))
    = (store.any (fun row => row.id == tileId) &&
        decide (now - (w : Int) * 86400 ≤ tWrite)) := by
  induction store with
  | nil => rfl
  | cons a rest ih =>
    simp only [List.map_cons, List.any_cons, ih]
    by_cases ha : (a.id == tileId) = true
    · simp only [if_pos ha, ha, Bool.true_and, Bool.true_or]
      cases hD : decide (now - (w : Int) * 86400 ≤ tWrite) with
      | false =>
        have hlt := of_decide_eq_false hD
        simp [hD]
        intro _
        omega
      | true =>
        have hle := of_decide_eq_true hD
        have heq : a.id = tileId := by simpa using ha
        simp [hD]
        exact Or.inl ⟨heq, by omega⟩
    · have ha' : (a.id == tileId) = false := by simpa using ha
      simp [ha']

/-- After `insert_new_boundaries_tracking`, the freshness check for that tile
is exactly the window test against the write time. -/
theorem boundary_check_after_insert (store : BoundaryStore) (tileId : Nat) (t : Tile)
    (total : Nat) (tWrite now : Int) (w : Nat) :
    check_if_boundaries_exists (insert_new_boundaries_tracking store tileId t total tWrite)
        now w tileId
      = decide (now - (w : Int) * 86400 ≤ tWrite) := by
  unfold check_if_boundaries_exists insert_new_boundaries_tracking
  by_cases hany : store.any (fun row => row.id == tileId) = true
  · rw [if_pos hany, any_check_map_update, hany, Bool.true_and]
  · have hany' : store.any (fun row => row.id == tileId) = false := by simpa using hany
    rw [if_neg (by rw [hany']; simp), List.any_append,
      any_false_of_no_key store tileId _ hany']
    simp

theorem find_map_replace (store : ListingStore) (k : String) (v : ListingRow)
    (h : store.any (fun p => p.1 == k) = true) :
    (store.map (fun p => if p.1 == k then (k, v) else p)).find? (fun p => p.1 == k)
      = some (k, v) := by
  induction store with
  | nil => simp at h
  | cons a t ih =>
    simp only [List.any_cons, Bool.or_eq_true] at h
    by_cases ha : (a.1 == k) = true
    · rw [List.map_cons, if_pos ha, List.find?_cons_of_pos _ (by simp)]
    · have ha' : (a.1 == k) = false := by simpa using ha
      rw [List.map_cons, if_neg (by simp [ha']), List.find?_cons_of_neg _ (by simp [ha'])]
      exact ih (h.resolve_left (by simp [ha']))

theorem find_append_new (store : ListingStore) (k : String) (v : ListingRow)
    (h : store.any (fun p => p.1 == k) = false) :
    (store ++ [(k, v)]).find? (fun p => p.1 == k) = some (k, v) := by
  induction store with
  | nil => simp [List.find?_cons]
  | cons a t ih =>
    simp only [List.any_cons, Bool.or_eq_false_iff] at h
    rw [List.cons_append, List.find?_cons_of_neg _ (by simp [h.1])]
    exact ih h.2

/-- `INSERT OR REPLACE` makes the stored row for the key exactly the new
row. -/
theorem lookupRow_insertOrReplace (store : ListingStore) (k : String) (v : ListingRow) :
    lookupRow (insertOrReplace store k v) k = some v := by
  unfold lookupRow insertOrReplace
  by_cases h : store.any (fun p => p.1 == k) = true
  · rw [if_pos h, find_map_replace store k v h, Option.map_some']
  · have h' : store.any (fun p => p.1 == k) = false := Bool.eq_false_iff.mpr h
    rw [if_neg h, find_append_new store k v h', Option.map_some']

/-! ## Claim C5 — tile freshness monotonicity (corrected) -/

/-- Claim C5, counterexample to the claim as stated: with
`tileFreshnessWindowDays = 30`, a tile recorded at time 0 and checked at
exactly `now - t = 30 days = 2592000 s` (so `now - t >= window`) is still
reported fresh, whereas the claim demands `false` there. -/
theorem C5_counterexample :
    check_if_boundaries_exists
      (insert_new_boundaries_tracking [] 0 (fixtureTile []) 5 0) 2592000 30 0 = true := by
  rfl

/-- Claim C5 (amended): after `recordTileScrape` writes the tile row at time
`tWrite`, the freshness check at any time `now` returns true exactly when
`now - tWrite <= window` (in particular immediately after the write), and
false exactly when `now - tWrite > window` — the boundary instant
`now - t = window` counts as fresh, not stale as the claim stated. -/
theorem C5_tile_freshness_window (store : BoundaryStore) (tileId : Nat) (t : Tile)
    (total : Nat) (tWrite now : Int) (w : Nat) :
    check_if_boundaries_exists (insert_new_boundaries_tracking store tileId t total tWrite)
        now w tileId
      = decide (now - tWrite ≤ (w : Int) * 86400) := by
  rw [boundary_check_after_insert]
  exact decide_eq_decide.mpr (by omega)

/-! ## Claim C10 — basic upsert replaces the whole row (confirmed) -/

/-- Claim C10: `insert_basic_listing` replaces the entire stored row for its
identifier: whatever row was stored before (in particular a fully detailed
one), afterwards the row has `has_detailed_data = 0`,
`needs_detail_scraping = 1`, the fresh `scraping_time`, and every detail-only
field absent from the input is reset to its zero-value default — previously
stored enrichment data is erased by a basic re-scrape. -/
theorem C10_basic_upsert_resets_detail (store : ListingStore) (data : BasicInput)
    (now : Int) (h : noDetailFields data = true) :
    lookupRow (insert_basic_listing store data now) data.id = some
      { id := data.id, listingObjType := data.listingObjType,
        roomTypeCategory := data.roomTypeCategory, title := data.title, name := data.name,
        picture := data.picture, checkin := data.checkin, checkout := data.checkout,
        price := data.price, discounted_price := data.discounted_price,
        original_price := data.original_price, link := data.link,
        scraping_time := now, needs_detail_scraping := 1, has_detailed_data := 0,
        reviewsCount := 0, averageRating := 0, host := none, airbnbLuxe := false,
        location := none, maxGuestCapacity := 0, isGuestFavorite := false, lat := none,
        lng := none, isSuperhost := false, isVerified := false, ratingCount := 0,
        userId := none, years := 0, months := 0, hostrAtingAverage := 0 } := by
  unfold insert_basic_listing
  rw [lookupRow_insertOrReplace]
  unfold noDetailFields at h
  simp only [Bool.and_eq_true, Option.isNone_iff_eq_none] at h
  obtain ⟨⟨⟨⟨⟨⟨⟨⟨⟨⟨⟨⟨⟨⟨⟨h1, h2⟩, h3⟩, h4⟩, h5⟩, h6⟩, h7⟩, h8⟩, h9⟩, h10⟩, h11⟩,
    h12⟩, h13⟩, h14⟩, h15⟩, h16⟩ := h
  simp [h1, h2, h3, h4, h5, h6, h7, h8, h9, h10, h11, h12, h13, h14, h15, h16]

/-- Claim C10, witness: re-inserting listing "5" as basic over its fully
detailed row erases the enrichment and demotes it. -/
theorem C10_basic_upsert_resets_detail_witness :
    noDetailFields sampleBasic = true ∧
    lookupRow (insert_basic_listing [("5", sampleDetailedRow)] sampleBasic 777)
        sampleBasic.id = some
      { id := sampleBasic.id, listingObjType := sampleBasic.listingObjType,
        roomTypeCategory := sampleBasic.roomTypeCategory, title := sampleBasic.title,
        name := sampleBasic.name, picture := sampleBasic.picture,
        checkin := sampleBasic.checkin, checkout := sampleBasic.checkout,
        price := sampleBasic.price, discounted_price := sampleBasic.discounted_price,
        original_price := sampleBasic.original_price, link := sampleBasic.link,
        scraping_time := 777, needs_detail_scraping := 1, has_detailed_data := 0,
        reviewsCount := 0, averageRating := 0, host := none, airbnbLuxe := false,
        location := none, maxGuestCapacity := 0, isGuestFavorite := false, lat := none,
        lng := none, isSuperhost := false, isVerified := false, ratingCount := 0,
        userId := none, years := 0, months := 0, hostrAtingAverage := 0 } :=
  ⟨by decide,
   C10_basic_upsert_resets_detail [("5", sampleDetailedRow)] sampleBasic 777 (by decide)⟩

/-! ## Claim C7 — cursor initialisation and wraparound (confirmed) -/

/-- Claim C7: on first run the persisted cursor row is created with value 0;
and whenever the stored cursor is at least the number of loaded tiles, the
run starts again from tile index 0 with the persisted cursor reset to 0 (the
run proceeds exactly as if the stored cursor were 0). -/
theorem C7_cursor_wraparound :
    get_tracking none = (0, some 0) ∧
    ∀ (cfg : ScrapeConfig) (now : Int) (allTiles : List Tile) (db : DBState) (v : Nat),
      db.tracking = some v → allTiles.length ≤ v →
      start_scraping cfg now allTiles db
        = runTiles cfg now (allTiles.take cfg.BOUNDARIES_PER_SCRAPING) 0
            { listings := db.listings, boundaries := db.boundaries, tracking := 0,
              processed_total := 0, stop_everything := false, fetches := 0 } := by
  refine ⟨rfl, ?_⟩
  intro cfg now allTiles db v hdb hlen
  unfold start_scraping
  rw [hdb]
  simp [get_tracking, if_pos hlen]

/-- Claim C7, witness: a stored cursor of 7 with a single loaded tile resumes
from tile 0 with the cursor reset. -/
theorem C7_cursor_wraparound_witness :
    ({ listings := [], boundaries := [], tracking := some 7 } : DBState).tracking = some 7 ∧
    ([fixtureTile [none]].length ≤ 7) ∧
    start_scraping (fixtureCfg 3) 0 [fixtureTile [none]]
        { listings := [], boundaries := [], tracking := some 7 }
      = runTiles (fixtureCfg 3) 0 ([fixtureTile [none]].take (fixtureCfg 3).BOUNDARIES_PER_SCRAPING) 0
          { listings := [], boundaries := [], tracking := 0, processed_total := 0,
            stop_everything := false, fetches := 0 } :=
  ⟨rfl, by decide,
   C7_cursor_wraparound.2 (fixtureCfg 3) 0 [fixtureTile [none]]
     { listings := [], boundaries := [], tracking := some 7 } 7 rfl (by decide)⟩

/-! ## Claims C4 and C8 — identifier normalization -/

theorem dropWhile_eq_self_of_forall {p : Char → Bool} :
    ∀ cs : List Char, (∀ c ∈ cs, p c = false) → cs.dropWhile p = cs
  | [], _ => rfl
  | a :: t, h => by
    have ha := h a (by simp)
    simp [List.dropWhile_cons, ha]

theorem digit_not_space (c : Char) (h : pyIsDigitChar c = true) : pyIsSpace c = false := by
  unfold pyIsDigitChar at h
  unfold pyIsSpace
  simp only [Bool.and_eq_true, decide_eq_true_eq] at h
  simp only [Bool.or_eq_false_iff, beq_eq_false_iff_ne, ne_eq]
  omega

theorem pyStripList_digits (cs : List Char) (h : cs.all (fun c => pyIsDigitChar c) = true) :
    pyStripList cs = cs := by
  unfold pyStripList
  rw [List.all_eq_true] at h
  rw [dropWhile_eq_self_of_forall cs (fun c hc => digit_not_space c (h c hc))]
  rw [dropWhile_eq_self_of_forall cs.reverse
    (fun c hc => digit_not_space c (h c (List.mem_reverse.mp hc)))]
  exact List.reverse_reverse cs

theorem pyStrip_digits (s : String) (h : pyIsdigit s = true) : pyStrip s = s := by
  unfold pyIsdigit pyIsdigitList at h
  rw [Bool.and_eq_true] at h
  unfold pyStrip
  rw [pyStripList_digits s.data h.2]

theorem normalizeCore_digits (x : String) (h : pyIsdigit x = true) :
    normalizeCore (.pstr x) = .ok (some x) := by
  have hs := pyStrip_digits x h
  simp [normalizeCore, hs, h]

/-- Claim C8: identifier normalization is idempotent on digit strings: for
every nonempty all-digit string `x` (Python's `isdigit`), `normalize x = x`,
and the Python composition `normalize(normalize(x))` agrees with
`normalize(x)`. -/
theorem C8_normalize_idempotent_on_digits :
    (∀ x : String, pyIsdigit x = true →
      _normalize_listing_id (.pstr x) .pnone = .ok (some x)) ∧
    (∀ x : String, pyIsdigit x = true →
      normalizeTwice x = _normalize_listing_id (.pstr x) .pnone) := by
  have base : ∀ x : String, pyIsdigit x = true →
      _normalize_listing_id (.pstr x) .pnone = .ok (some x) := by
    intro x h
    show normalizeCore (.pstr x) = .ok (some x)
    exact normalizeCore_digits x h
  refine ⟨base, fun x h => ?_⟩
  unfold normalizeTwice
  rw [base x h]
  exact base x h

/-- Claim C8, witness at the digit string "12345". -/
theorem C8_normalize_idempotent_on_digits_witness :
    pyIsdigit "12345" = true ∧
    _normalize_listing_id (.pstr "12345") .pnone = .ok (some "12345") ∧
    normalizeTwice "12345" = _normalize_listing_id (.pstr "12345") .pnone :=
  ⟨by decide,
   C8_normalize_idempotent_on_digits.1 "12345" (by decide),
   C8_normalize_idempotent_on_digits.2 "12345" (by decide)⟩

theorem any_check_map_listing (L : ListingStore) (k : String) (v : ListingRow) (now : Int)
    (w : Nat) (jd : String) (hne : jd ≠ k) :
    ((L.map (fun p => if p.1 == k then (k, v) else p)).any
        (fun p => p.1 == jd && decide (now - (w : Int) * 86400 ≤ p.2.scraping_time)))
      = L.any (fun p => p.1 == jd && decide (now - (w : Int) * 86400 ≤ p.2.scraping_time)) := by
  induction L with
  | nil => rfl
  | cons a t ih =>
    simp only [List.map_cons, List.any_cons, ih]
    by_cases ha : (a.1 == k) = true
    · have hak : a.1 = k := by simpa using ha
      rw [if_pos ha]
      have h1 : (k == jd) = false := by simp [Ne.symm hne]
      have h2 : (a.1 == jd) = false := by simp [hak, Ne.symm hne]
      simp [h1, h2]
    · rw [if_neg ha]

/-- Inserting a row for one key leaves the freshness check of every other key
unchanged. -/
theorem check_insert_other (L : ListingStore) (r : BasicInput) (now now2 : Int) (w : Nat)
    (jd : String) (hne : jd ≠ r.id) :
    check_if_listing_exists (insert_basic_listing L r now) now2 w jd
      = check_if_listing_exists L now2 w jd := by
  unfold insert_basic_listing check_if_listing_exists insertOrReplace
  by_cases h : L.any (fun p => p.1 == r.id) = true
  · rw [if_pos h]
    exact any_check_map_listing L r.id _ now2 w jd hne
  · rw [if_neg h, List.any_append]
    have h2 : (r.id == jd) = false := by simp [Ne.symm hne]
    simp [h2, Ne.symm hne]

theorem check_insertOrReplace_self (L : ListingStore) (k : String) (v : ListingRow)
    (now : Int) (w : Nat) (hv : now - (w : Int) * 86400 ≤ v.scraping_time) :
    check_if_listing_exists (insertOrReplace L k v) now w k = true := by
  unfold check_if_listing_exists
  have hmem : (k, v) ∈ insertOrReplace L k v := by
    have hl := lookupRow_insertOrReplace L k v
    unfold lookupRow at hl
    cases hf : (insertOrReplace L k v).find? (fun p => p.1 == k) with
    | none => rw [hf] at hl; simp at hl
    | some p =>
      rw [hf] at hl
      simp only [Option.map_some', Option.some.injEq] at hl
      have h1 := List.find?_some hf
      have h2 := List.mem_of_find?_eq_some hf
      have hp : p = (k, v) := Prod.ext (by simpa using h1) hl
      rwa [← hp]
  rw [List.any_eq_true]
  exact ⟨(k, v), hmem, by simpa using hv⟩

/-- The row just written by `insert_basic_listing` is fresh at the write
instant. -/
theorem check_insert_self (L : ListingStore) (r : BasicInput) (now : Int) (w : Nat) :
    check_if_listing_exists (insert_basic_listing L r now) now w r.id = true := by
  unfold insert_basic_listing
  exact check_insertOrReplace_self L r.id _ now w (by simp)

theorem processResults_frame (cfg : ScrapeConfig) (now : Int) (rs : List BasicInput) :
    ∀ (st : RunState) (tf : Nat),
      (processResults cfg now rs st tf).1.tracking = st.tracking ∧
      (processResults cfg now rs st tf).1.boundaries = st.boundaries ∧
      (processResults cfg now rs st tf).1.fetches = st.fetches := by
  induction rs with
  | nil => exact fun st tf => ⟨rfl, rfl, rfl⟩
  | cons r rs ih =>
    intro st tf
    rw [processResults]
    by_cases hs : st.stop_everything = true
    · simp [hs]
    · have hs' : st.stop_everything = false := Bool.eq_false_iff.mpr hs
      simp only [hs', Bool.false_eq_true, if_false]
      by_cases hcap : cfg.MAX_LISTINGS_PER_RUN ≤ st.processed_total
      · simp [hcap]
      · rw [if_neg hcap]
        by_cases hex : check_if_listing_exists st.listings now
            cfg.UPDATE_WINDOW_DAYS_LISTING r.id = true
        · rw [if_pos hex]
          exact ih st (tf + 1)
        · rw [if_neg hex]
          have h := ih { st with listings := insert_basic_listing st.listings r now,
                                 processed_total := st.processed_total + 1 } (tf + 1)
          simpa [hs'] using h

theorem processResults_cap (cfg : ScrapeConfig) (now : Int) (rs : List BasicInput) :
    ∀ (st : RunState) (tf : Nat),
      st.processed_total ≤ cfg.MAX_LISTINGS_PER_RUN →
      (processResults cfg now rs st tf).1.processed_total ≤ cfg.MAX_LISTINGS_PER_RUN := by
  induction rs with
  | nil => exact fun st tf h => h
  | cons r rs ih =>
    intro st tf h
    rw [processResults]
    by_cases hs : st.stop_everything = true
    · simp [hs]; exact h
    · have hs' : st.stop_everything = false := Bool.eq_false_iff.mpr hs
      simp only [hs', Bool.false_eq_true, if_false]
      by_cases hcap : cfg.MAX_LISTINGS_PER_RUN ≤ st.processed_total
      · simp [hcap]; exact h
      · rw [if_neg hcap]
        by_cases hex : check_if_listing_exists st.listings now
            cfg.UPDATE_WINDOW_DAYS_LISTING r.id = true
        · rw [if_pos hex]
          exact ih st (tf + 1) h
        · rw [if_neg hex]
          exact ih _ (tf + 1) (by simpa using Nat.succ_le_of_lt (Nat.lt_of_not_le hcap))

/-- The per-page record loop under an over-budget supply of distinct new
records: the counter lands exactly on the cap and the stop flag is raised. -/
theorem processResults_over (cfg : ScrapeConfig) (now : Int) (rs : List BasicInput) :
    ∀ (st : RunState) (tf : Nat),
      st.stop_everything = false →
      (∀ r ∈ rs, check_if_listing_exists st.listings now
        cfg.UPDATE_WINDOW_DAYS_LISTING r.id = false) →
      (rs.map (fun r => r.id)).Nodup →
      st.processed_total ≤ cfg.MAX_LISTINGS_PER_RUN →
      cfg.MAX_LISTINGS_PER_RUN < st.processed_total + rs.length →
      (processResults cfg now rs st tf).1.processed_total = cfg.MAX_LISTINGS_PER_RUN ∧
      (processResults cfg now rs st tf).1.stop_everything = true := by
  induction rs with
  | nil =>
    intro st tf _ _ _ hle hover
    simp at hover
    omega
  | cons r rs ih =>
    intro st tf hs hfresh hnodup hle hover
    rw [processResults]
    rw [if_neg (by rw [hs]; simp)]
    by_cases hcap : cfg.MAX_LISTINGS_PER_RUN ≤ st.processed_total
    · rw [if_pos hcap]
      refine ⟨?_, rfl⟩
      show st.processed_total = cfg.MAX_LISTINGS_PER_RUN
      omega
    · rw [if_neg hcap]
      have hlt : st.processed_total < cfg.MAX_LISTINGS_PER_RUN := Nat.lt_of_not_le hcap
      have hr := hfresh r (by simp)
      rw [if_neg (by rw [hr]; simp)]
      rw [List.map_cons, List.nodup_cons] at hnodup
      refine ih _ (tf + 1) hs ?_ hnodup.2 (by simpa using hlt) ?_
      · intro r2 hr2
        have hne : r2.id ≠ r.id := by
          intro he
          exact hnodup.1 (he ▸ List.mem_map_of_mem (fun x => x.id) hr2)
        show check_if_listing_exists (insert_basic_listing st.listings r now) now
          cfg.UPDATE_WINDOW_DAYS_LISTING r2.id = false
        rw [check_insert_other st.listings r now now cfg.UPDATE_WINDOW_DAYS_LISTING r2.id hne]
        exact hfresh r2 (List.mem_cons_of_mem r hr2)
      · show cfg.MAX_LISTINGS_PER_RUN < st.processed_total + 1 + rs.length
        simp only [List.length_cons] at hover
        omega

theorem runTilePages_cons (cfg : ScrapeConfig) (now : Int) (po : Option PageResult)
    (rest : List (Option PageResult)) (st : RunState) (tf : Nat) :
    runTilePages cfg now (po :: rest) st tf =
      if st.stop_everything then (st, tf)
      else
        match po with
        | none => ({ st with fetches := st.fetches + 1 }, tf)
        | some pr =>
          let st1 := { st with fetches := st.fetches + 1 }
          let valid := pr.searchResults.filter isValidListing
          let res := processResults cfg now valid st1 tf
          if res.1.stop_everything || pr.nextPageCursor.isNone || valid.length < 13
          then res
          else runTilePages cfg now rest res.1 res.2 := by
  conv_lhs => rw [runTilePages.eq_def]

theorem runTilePages_fetches_ge (cfg : ScrapeConfig) (now : Int)
    (pages : List (Option PageResult)) :
    ∀ (st : RunState) (tf : Nat),
      st.fetches ≤ (runTilePages cfg now pages st tf).1.fetches := by
  induction pages with
  | nil => exact fun st tf => Nat.le_refl _
  | cons po rest ih =>
    intro st tf
    rw [runTilePages_cons]
    by_cases hs : st.stop_everything = true
    · simp [hs]
    · rw [if_neg hs]
      cases po with
      | none => simp
      | some pr =>
        dsimp only
        have hfr := (processResults_frame cfg now (pr.searchResults.filter isValidListing)
          { st with fetches := st.fetches + 1 } tf).2.2
        by_cases hc : ((processResults cfg now (pr.searchResults.filter isValidListing)
            { st with fetches := st.fetches + 1 } tf).1.stop_everything ||
            pr.nextPageCursor.isNone ||
            decide ((pr.searchResults.filter isValidListing).length < 13)) = true
        · rw [if_pos hc, hfr]
          simp
        · rw [if_neg hc]
          calc st.fetches
              ≤ (processResults cfg now (pr.searchResults.filter isValidListing)
                  { st with fetches := st.fetches + 1 } tf).1.fetches := by
                rw [hfr]; simp
            _ ≤ _ := ih _ _

theorem runTilePages_cap (cfg : ScrapeConfig) (now : Int)
    (pages : List (Option PageResult)) :
    ∀ (st : RunState) (tf : Nat),
      st.processed_total ≤ cfg.MAX_LISTINGS_PER_RUN →
      (runTilePages cfg now pages st tf).1.processed_total ≤ cfg.MAX_LISTINGS_PER_RUN := by
  induction pages with
  | nil => exact fun st tf h => h
  | cons po rest ih =>
    intro st tf h
    rw [runTilePages_cons]
    by_cases hs : st.stop_everything = true
    · simp [hs]; exact h
    · rw [if_neg hs]
      cases po with
      | none => simpa using h
      | some pr =>
        dsimp only
        have hpr := processResults_cap cfg now (pr.searchResults.filter isValidListing)
          { st with fetches := st.fetches + 1 } tf (by simpa using h)
        by_cases hc : ((processResults cfg now (pr.searchResults.filter isValidListing)
            { st with fetches := st.fetches + 1 } tf).1.stop_everything ||
            pr.nextPageCursor.isNone ||
            decide ((pr.searchResults.filter isValidListing).length < 13)) = true
        · rw [if_pos hc]
          exact hpr
        · rw [if_neg hc]
          exact ih _ _ hpr

theorem runTile_cap (cfg : ScrapeConfig) (now : Int) (idx : Nat) (t : Tile) (st : RunState)
    (h : st.processed_total ≤ cfg.MAX_LISTINGS_PER_RUN) :
    (runTile cfg now idx t st).processed_total ≤ cfg.MAX_LISTINGS_PER_RUN := by
  rw [runTile]
  by_cases h1 : check_if_boundaries_exists st.boundaries now
      cfg.UPDATE_WINDOW_DAYS_BOUNDARY idx = true
  · simp [h1]; exact h
  · rw [if_neg h1]
    by_cases h2 : (!isPlausibleMoroccoBbox t) = true
    · simp [h2]; exact h
    · rw [if_neg h2]
      simpa using runTilePages_cap cfg now t.pages st 0 h

theorem runTiles_cap (cfg : ScrapeConfig) (now : Int) (tiles : List Tile) :
    ∀ (idx : Nat) (st : RunState),
      st.processed_total ≤ cfg.MAX_LISTINGS_PER_RUN →
      (runTiles cfg now tiles idx st).processed_total ≤ cfg.MAX_LISTINGS_PER_RUN := by
  induction tiles with
  | nil => exact fun idx st h => h
  | cons t ts ih =>
    intro idx st h
    rw [runTiles]
    by_cases hs : st.stop_everything = true
    · simp [hs]; exact h
    · rw [if_neg hs]
      exact ih (idx + 1) _ (runTile_cap cfg now idx t st h)

/-! ## Claim C2 — first-page fetch exhaustion (corrected) -/

/-- Claim C2, counterexample to the claim as stated: a run over a single
plausible tile whose only (first) page fetch fails after all retries still
writes the tile-scrape row — `insert_new_boundaries_tracking` and
`update_tracking` run unconditionally after the pagination loop — so the
tile IS considered fresh afterwards and will be skipped, not retried, on the
next run; the claim said no tile-scrape row is written. -/
theorem C2_counterexample :
    check_if_boundaries_exists
      (start_scraping (fixtureCfg 3) 1000 [fixtureTile [none]] emptyDB).boundaries
      1000 30 0 = true := by
  rfl

/-- Claim C2 (amended): when the first search-page fetch of a tile fails
after all retries are exhausted, the tile is abandoned for this run (no
listing rows are written, the budget counter does not move), the crawl cursor
is still advanced past the tile — but, contrary to the claim, the tile IS
recorded as scraped (a tile-scrape row with recordCount 0 and the current
timestamp is written unconditionally after the loop), so the freshness check
reports it fresh and the tile is skipped, not retried, while the window
lasts. -/
theorem C2_first_fetch_exhausted (cfg : ScrapeConfig) (now : Int) (idx : Nat) (t : Tile)
    (st : RunState) (rest : List (Option PageResult))
    (hfresh : check_if_boundaries_exists st.boundaries now
      cfg.UPDATE_WINDOW_DAYS_BOUNDARY idx = false)
    (hbox : isPlausibleMoroccoBbox t = true)
    (hpages : t.pages = none :: rest) :
    (runTile cfg now idx t st).listings = st.listings ∧
    (runTile cfg now idx t st).processed_total = st.processed_total ∧
    (runTile cfg now idx t st).tracking = idx + 1 ∧
    check_if_boundaries_exists (runTile cfg now idx t st).boundaries now
      cfg.UPDATE_WINDOW_DAYS_BOUNDARY idx = true := by
  rw [runTile]
  rw [if_neg (by rw [hfresh]; simp)]
  rw [if_neg (by rw [hbox]; simp)]
  rw [hpages, runTilePages_cons]
  by_cases hs : st.stop_everything = true
  · rw [if_pos hs]
    refine ⟨rfl, rfl, rfl, ?_⟩
    show check_if_boundaries_exists
      (insert_new_boundaries_tracking st.boundaries idx t 0 now) now
      cfg.UPDATE_WINDOW_DAYS_BOUNDARY idx = true
    rw [boundary_check_after_insert]
    simp only [decide_eq_true_eq]
    omega
  · rw [if_neg hs]
    dsimp only
    refine ⟨rfl, rfl, rfl, ?_⟩
    show check_if_boundaries_exists
      (insert_new_boundaries_tracking st.boundaries idx t 0 now) now
      cfg.UPDATE_WINDOW_DAYS_BOUNDARY idx = true
    rw [boundary_check_after_insert]
    simp only [decide_eq_true_eq]
    omega

/-- Claim C2 (amended), witness: tile 0 with a failed first fetch over an
empty store. -/
theorem C2_first_fetch_exhausted_witness :
    check_if_boundaries_exists freshRunState.boundaries 1000
      (fixtureCfg 3).UPDATE_WINDOW_DAYS_BOUNDARY 0 = false ∧
    isPlausibleMoroccoBbox (fixtureTile [none]) = true ∧
    (fixtureTile [none]).pages = none :: [] ∧
    ((runTile (fixtureCfg 3) 1000 0 (fixtureTile [none]) freshRunState).listings
        = freshRunState.listings ∧
     (runTile (fixtureCfg 3) 1000 0 (fixtureTile [none]) freshRunState).processed_total
        = freshRunState.processed_total ∧
     (runTile (fixtureCfg 3) 1000 0 (fixtureTile [none]) freshRunState).tracking = 0 + 1 ∧
     check_if_boundaries_exists
       (runTile (fixtureCfg 3) 1000 0 (fixtureTile [none]) freshRunState).boundaries 1000
       (fixtureCfg 3).UPDATE_WINDOW_DAYS_BOUNDARY 0 = true) :=
  ⟨rfl, by decide, rfl,
   C2_first_fetch_exhausted (fixtureCfg 3) 1000 0 (fixtureTile [none]) freshRunState []
     rfl (by decide) rfl⟩

/-! ## Claim C6 — pagination termination rule (confirmed) -/

/-- Claim C6: after a page is fetched and extracted, the pagination loop
issues a further fetch if and only if the stop flag is still unset after
processing the page's records AND the extracted `nextPageCursor` is non-null
AND the page's (validated) record count is at least the full-page threshold
of 13; when the cursor is null or the count is below the threshold the tile's
pagination is done and no further page is fetched. -/
theorem C6_pagination_termination (cfg : ScrapeConfig) (now : Int) (pr1 pr2 : PageResult)
    (rest : List (Option PageResult)) (st : RunState) (tf : Nat)
    (hs : st.stop_everything = false) :
    (st.fetches + 2 ≤ (runTilePages cfg now (some pr1 :: some pr2 :: rest) st tf).1.fetches)
      ↔ ((processResults cfg now (pr1.searchResults.filter isValidListing)
            { st with fetches := st.fetches + 1 } tf).1.stop_everything = false ∧
         pr1.nextPageCursor.isSome = true ∧
         13 ≤ (pr1.searchResults.filter isValidListing).length) := by
  rw [runTilePages_cons, if_neg (by rw [hs]; simp)]
  dsimp only
  set res := processResults cfg now (pr1.searchResults.filter isValidListing)
    { st with fetches := st.fetches + 1 } tf with hres
  have hfr : res.1.fetches = st.fetches + 1 := by
    rw [hres]
    exact (processResults_frame cfg now (pr1.searchResults.filter isValidListing)
      { st with fetches := st.fetches + 1 } tf).2.2
  by_cases hc : (res.1.stop_everything || pr1.nextPageCursor.isNone ||
      decide ((pr1.searchResults.filter isValidListing).length < 13)) = true
  · rw [if_pos hc]
    constructor
    · intro hge
      rw [hfr] at hge
      omega
    · rintro ⟨h1, h2, h3⟩
      rw [h1, Bool.false_or] at hc
      have hc2 : pr1.nextPageCursor.isNone = true ∨
          (pr1.searchResults.filter isValidListing).length < 13 := by simpa using hc
      rcases hc2 with h4 | h5
      · rw [Option.isNone_iff_eq_none] at h4
        rw [h4] at h2
        simp at h2
      · omega
  · rw [if_neg hc]
    have hc3 : (res.1.stop_everything || pr1.nextPageCursor.isNone ||
        decide ((pr1.searchResults.filter isValidListing).length < 13)) = false :=
      Bool.eq_false_iff.mpr hc
    simp only [Bool.or_eq_false_iff] at hc3
    obtain ⟨⟨hstop2, hcur⟩, hlen⟩ := hc3
    constructor
    · intro _
      refine ⟨hstop2, ?_, ?_⟩
      · cases hcv : pr1.nextPageCursor with
        | none => rw [hcv] at hcur; simp at hcur
        | some c => rfl
      · have := of_decide_eq_false hlen
        omega
    · intro _
      rw [runTilePages_cons, if_neg (by rw [hstop2]; simp)]
      dsimp only
      set res2 := processResults cfg now (pr2.searchResults.filter isValidListing)
        { res.1 with fetches := res.1.fetches + 1 } res.2 with hres2
      have hfr2 : res2.1.fetches = res.1.fetches + 1 := by
        rw [hres2]
        exact (processResults_frame cfg now (pr2.searchResults.filter isValidListing)
          { res.1 with fetches := res.1.fetches + 1 } res.2).2.2
      by_cases hc2 : (res2.1.stop_everything || pr2.nextPageCursor.isNone ||
          decide ((pr2.searchResults.filter isValidListing).length < 13)) = true
      · rw [if_pos hc2, hfr2, hfr]
      · rw [if_neg hc2]
        have hge := runTilePages_fetches_ge cfg now rest res2.1 res2.2
        rw [hfr2, hfr] at hge
        omega

/-- Claim C6, witness: a full first page (13 valid records, cursor present)
does trigger a second fetch in a fresh run state. -/
theorem C6_pagination_termination_witness :
    freshRunState.stop_everything = false ∧
    ((freshRunState.fetches + 2 ≤
        (runTilePages (fixtureCfg 100) 1000 [some fullPage, some emptyPage]
          freshRunState 0).1.fetches)
      ↔ ((processResults (fixtureCfg 100) 1000 (fullPage.searchResults.filter isValidListing)
            { freshRunState with fetches := freshRunState.fetches + 1 } 0).1.stop_everything
              = false ∧
         fullPage.nextPageCursor.isSome = true ∧
         13 ≤ (fullPage.searchResults.filter isValidListing).length)) :=
  ⟨rfl,
   C6_pagination_termination (fixtureCfg 100) 1000 fullPage emptyPage []
     freshRunState 0 rfl⟩

/-- `ratDiffLe` is exactly the rational comparison `a - b ≤ c` from the
source. -/
theorem ratDiffLe_eq (a b c : ℚ) : ratDiffLe a b c = decide (a - b ≤ c) := by
  unfold ratDiffLe
  rw [decide_eq_decide]
  have ha : (0 : ℚ) < (a.den : ℚ) := by exact_mod_cast a.den_pos
  have hb : (0 : ℚ) < (b.den : ℚ) := by exact_mod_cast b.den_pos
  have hc : (0 : ℚ) < (c.den : ℚ) := by exact_mod_cast c.den_pos
  conv_rhs => rw [← Rat.num_div_den a, ← Rat.num_div_den b, ← Rat.num_div_den c]
  rw [div_sub_div _ _ (ne_of_gt ha) (ne_of_gt hb),
    div_le_div_iff₀ (by positivity) hc]
  rw [show ((a.num : ℚ) * ↑b.den - ↑a.den * b.num) * ↑c.den
      = ((a.num : ℚ) * ↑b.den - b.num * ↑a.den) * ↑c.den by ring]
  constructor
  · intro h
    exact_mod_cast h
  · intro h
    exact_mod_cast h

/-! ## Claim C1 — per-run budget enforcement (confirmed) -/

theorem isValid_mkBasic (i : Nat) : isValidListing (mkBasic i) = true := by
  have h1 : (List.replicate (i + 1) '1').isEmpty = false := by
    simp [List.replicate_succ]
  have h2 : (List.replicate (i + 1) '1').all (fun c => pyIsDigitChar c) = true := by
    rw [List.all_eq_true]
    intro c hc
    rw [List.eq_of_mem_replicate hc]
    decide
  show (!(List.replicate (i + 1) '1').isEmpty &&
    pyIsdigitList (List.replicate (i + 1) '1')) = true
  rw [pyIsdigitList, h1, h2]
  rfl

theorem filter_valid_mkRecords (k : Nat) :
    (mkRecords k).filter isValidListing = mkRecords k := by
  rw [List.filter_eq_self]
  intro r hr
  rw [mkRecords] at hr
  obtain ⟨i, _, rfl⟩ := List.mem_map.mp hr
  exact isValid_mkBasic i

theorem onesId_injective : Function.Injective onesId := by
  intro i j h
  have h2 := congrArg (fun s : String => s.data.length) h
  simpa [onesId] using h2

theorem nodup_mkRecords_ids (k : Nat) :
    ((mkRecords k).map (fun r => r.id)).Nodup := by
  rw [mkRecords, List.map_map]
  exact List.Nodup.map (fun i j h => onesId_injective h) (List.nodup_range k)

set_option maxRecDepth 8000 in
theorem isPlausible_fixtureTile (pages : List (Option PageResult)) :
    isPlausibleMoroccoBbox (fixtureTile pages) = true := rfl

theorem fixtureTile_pages (pages : List (Option PageResult)) :
    (fixtureTile pages).pages = pages := rfl

set_option maxRecDepth 4000 in
/-- Claim C1: the per-run budget is a hard cap — in any run the number of
newly persisted basic records never exceeds `MAX_LISTINGS_PER_RUN`; and on a
fixture whose single tile yields `k > N` distinct valid records none of which
is fresh in the store, the orchestrator persists exactly `N` new records
(the cap is checked before every persist and each persist increments the
counter), raises the run-wide stop flag, and leaves the persisted crawl
cursor advanced past the tile in which it stopped. -/
theorem C1_budget_enforcement (N k : Nat) (hk : N < k) :
    (∀ (cfg : ScrapeConfig) (now : Int) (tiles : List Tile) (db : DBState),
        (start_scraping cfg now tiles db).processed_total ≤ cfg.MAX_LISTINGS_PER_RUN) ∧
    ((start_scraping (fixtureCfg N) 1000
        [fixtureTile [some { searchResults := mkRecords k, nextPageCursor := none,
                             totalPages := 1 }]] emptyDB).processed_total = N ∧
     (start_scraping (fixtureCfg N) 1000
        [fixtureTile [some { searchResults := mkRecords k, nextPageCursor := none,
                             totalPages := 1 }]] emptyDB).stop_everything = true ∧
     (start_scraping (fixtureCfg N) 1000
        [fixtureTile [some { searchResults := mkRecords k, nextPageCursor := none,
                             totalPages := 1 }]] emptyDB).tracking = 1) := by
  constructor
  · intro cfg now tiles db
    unfold start_scraping
    exact runTiles_cap cfg now _ _ _ (Nat.zero_le _)
  · have hstart : start_scraping (fixtureCfg N) 1000
        [fixtureTile [some { searchResults := mkRecords k, nextPageCursor := none,
                             totalPages := 1 }]] emptyDB
        = runTile (fixtureCfg N) 1000 0
            (fixtureTile [some { searchResults := mkRecords k, nextPageCursor := none,
                                 totalPages := 1 }]) freshRunState := rfl
    rw [hstart, runTile]
    rw [if_neg (by simp [check_if_boundaries_exists, freshRunState])]
    rw [if_neg (by rw [isPlausible_fixtureTile]; simp)]
    dsimp only
    rw [fixtureTile_pages, runTilePages_cons, if_neg (by decide)]
    dsimp only
    rw [filter_valid_mkRecords]
    have hover := processResults_over (fixtureCfg N) 1000 (mkRecords k)
      { freshRunState with fetches := freshRunState.fetches + 1 } 0 rfl
      (fun r _ => rfl) (nodup_mkRecords_ids k) (Nat.zero_le N)
      (by simpa [mkRecords, fixtureCfg, freshRunState] using hk)
    rw [if_pos (by simp)]
    exact ⟨hover.1, hover.2, rfl⟩

/-- Claim C1, witness: cap 1 against a fixture of 2 available records. -/
theorem C1_budget_enforcement_witness :
    1 < 2 ∧
    ((start_scraping (fixtureCfg 1) 1000
        [fixtureTile [some { searchResults := mkRecords 2, nextPageCursor := none,
                             totalPages := 1 }]] emptyDB).processed_total = 1 ∧
     (start_scraping (fixtureCfg 1) 1000
        [fixtureTile [some { searchResults := mkRecords 2, nextPageCursor := none,
                             totalPages := 1 }]] emptyDB).stop_everything = true ∧
     (start_scraping (fixtureCfg 1) 1000
        [fixtureTile [some { searchResults := mkRecords 2, nextPageCursor := none,
                             totalPages := 1 }]] emptyDB).tracking = 1) :=
  ⟨by decide, (C1_budget_enforcement 1 2 (by decide)).2⟩

/-! ## Claim C3 — extraction totality (corrected) -/

set_option linter.unnecessarySeqFocus false in
theorem pyGet_eq_of_isObj (o : Json) (k : String) (d : Json) (h : isObj o = true) :
    pyGet o k d = .ok (jGetD o k d) := by
  cases o <;> simp [isObj] at h <;> rfl

theorem exceptBind_ok {ε α β : Type} (a : α) (f : α → Except ε β) :
    (Except.ok a >>= f : Except ε β) = f a := rfl

theorem exceptOk_exists {ε α : Type} (e : Except ε α) (h : exceptOk e = true) :
    ∃ a, e = .ok a := by
  cases e with
  | ok a => exact ⟨a, rfl⟩
  | error e => simp [exceptOk] at h

/-- Claim C3, counterexample to the claim as stated: on the successfully
parsed document `{"data": 5}` — a non-dict node where the extraction expects
a dict — `scrape_page_result`'s extraction raises `AttributeError` at
`(json_data.get('data') or {}).get('presentation', {})` instead of returning
a record list, cursor and totalPages. -/
theorem C3_counterexample :
    exceptOk (extractE 0 (Json.obj [("data", Json.num 5)])) = false := by
  rfl

/-- Claim C3 (amended): response extraction returns a possibly-empty record
list, a possibly-null next-page cursor and an integer totalPages, and never
raises, for every parsed JSON document that is well shaped: the root, the
`data`/`presentation`/`staysSearch` chain values, the selected data root and
the legacy-logging value must be dicts where they are used as dicts (or
absent/falsy), and the pagination count fields must convert to `int`.
Missing keys never raise, and exceptions inside the per-item mapping
(including identifier-normalization overflow) are caught and skip only that
item; but on non-dict nodes in the positions above, or unconvertible count
fields, the extraction raises and the orchestrator's retry path treats the
page as a failed fetch. -/
theorem C3_extraction_total_on_wellshaped (now : Int) (doc : Json)
    (h : wellShapedDoc doc = true) :
    exceptOk (extractE now doc) = true := by
  unfold wellShapedDoc at h
  simp only [Bool.and_eq_true] at h
  obtain ⟨hobj, hde, hpv, hsv, hrest⟩ := h
  unfold extractE
  rw [pyGet_eq_of_isObj doc "data" .null hobj]
  simp only [exceptBind_ok]
  rw [pyGet_eq_of_isObj _ "presentation" (Json.obj []) hde]
  simp only [exceptBind_ok]
  rw [pyGet_eq_of_isObj _ "staysSearch" (Json.obj []) hpv]
  simp only [exceptBind_ok]
  cases hro : (if jTruthy (jGetD (jGetD (jOr (jGetD doc "data" .null) (Json.obj []))
        "presentation" (Json.obj [])) "staysSearch" (Json.obj []))
      then some (jGetD (jGetD (jOr (jGetD doc "data" .null) (Json.obj []))
        "presentation" (Json.obj [])) "staysSearch" (Json.obj []))
      else (altDataPaths.filterMap (tryAltPath doc)).head?) with
  | none =>
    rfl
  | some dataRoot =>
    rw [hro] at hrest
    simp only [Bool.and_eq_true] at hrest
    obtain ⟨hdr, hlg, htp⟩ := hrest
    dsimp only
    rw [pyGet_eq_of_isObj dataRoot "results" .null hdr]
    simp only [exceptBind_ok]
    obtain ⟨tp, htp2⟩ := exceptOk_exists _ htp
    rw [htp2]
    simp only [exceptBind_ok]
    obtain ⟨v1, hv1⟩ := exceptOk_exists
      (pyGet (jOr (extractLegacyLogging (jOr (jGetD dataRoot "results" .null) dataRoot))
        (Json.obj [])) "federatedSearchId" .null)
      (by rw [pyGet_eq_of_isObj _ "federatedSearchId" .null hlg]; rfl)
    rw [hv1]
    simp only [exceptBind_ok]
    rw [pyGet_eq_of_isObj _ "federatedSearchSessionId" .null hlg]
    rfl

/-- Claim C3 (amended), witness: the empty document is well shaped and
extracts without raising. -/
theorem C3_extraction_total_on_wellshaped_witness :
    wellShapedDoc (Json.obj []) = true ∧
    exceptOk (extractE 0 (Json.obj [])) = true :=
  ⟨by decide, C3_extraction_total_on_wellshaped 0 (Json.obj []) (by decide)⟩

end AirbnbCrawl
